import Mathlib

set_option autoImplicit false

/-!
Verification of the media preview widget
(`Telegram/SourceFiles/window/window_media_preview.cpp`) and of the Linux
platform utility header
(`Telegram/SourceFiles/ui/platform/linux/ui_platform_utility_linux.h`).

The C++ code is shallowly embedded: Qt sizes become pairs of integers,
pixmaps become a small inductive datatype remembering how they were produced,
the widget's mutable fields become a state record, and each member function
becomes a state-passing Lean function translated line by line from the
source.  External collaborators (image loading, the Lottie player readiness,
the clip reader factory, the pause flag of the controller) are supplied
through an explicit environment record.
-/

namespace MediaPreview

/-- Mirror of `QSize`: a pair of machine integers.  The default-constructed
`QSize()` is `(-1, -1)` and `isEmpty()` holds when either component is
nonpositive, as in Qt. -/
structure QSize where
  width : Int
  height : Int
deriving DecidableEq, Repr, Inhabited

/-- Qt's `QSize::isEmpty`: width or height is not positive. -/
def QSize.isEmpty (s : QSize) : Bool :=
  decide (s.width ≤ 0) || decide (s.height ≤ 0)

/-- Qt's default-constructed `QSize()`, which is `(-1, -1)`. -/
def QSize.qdefault : QSize := ⟨-1, -1⟩

/-- An emoji pointer (`EmojiPtr`), identified abstractly by a number. -/
abbrev Emoji := Nat

/-- A rendered pixmap: either the null `QPixmap()`, a sharp rendering of an
image (`Image::pix`), a blurred rendering (`Image::pixBlurred`), or a frame
produced by the clip reader (`Media::Clip::Reader::current`).  Identifiers
record which image produced the pixmap and at which requested size. -/
inductive Pixmap where
  | null
  | sharp (imageId : Nat) (origin : Nat) (w h : Int)
  | blurred (imageId : Nat) (origin : Nat) (w h : Int)
  | gifFrame (w h : Int) (ms : Nat)
deriving DecidableEq, Repr, Inhabited

/-- Width of the pixmap as requested at creation; the null pixmap has width 0
like `QPixmap()`. -/
def Pixmap.width : Pixmap → Int
  | .null => 0
  | .sharp _ _ w _ => w
  | .blurred _ _ w _ => w
  | .gifFrame w _ _ => w

/-- Height of the pixmap as requested at creation. -/
def Pixmap.height : Pixmap → Int
  | .null => 0
  | .sharp _ _ _ h => h
  | .blurred _ _ _ h => h
  | .gifFrame _ h _ => h

/-- The sticker information of a document (`DocumentData::sticker()`):
whether the sticker is animated, and the result of `Ui::Emoji::Find` on its
`alt` text. -/
structure StickerData where
  animated : Bool
  altEmoji : Option Emoji
deriving DecidableEq, Repr, Inhabited

/-- The slice of `DocumentData` read by the widget. `emojiListFromSet` is the
result of `Stickers::GetEmojiListFromSet` on this document; `stickerLarge` is
the image returned by `getStickerLarge` when available; thumbnail state
mirrors `hasThumbnail`, `thumbnail()->loaded()` and `thumbnailInline`. -/
structure DocumentData where
  isAnimation : Bool
  isVideoMessage : Bool
  sticker : Option StickerData
  emojiListFromSet : Option (List Emoji)
  loaded : Bool
  stickerLarge : Option Nat
  hasThumbnail : Bool
  thumbnailLoaded : Bool
  thumbnailId : Nat
  thumbnailInline : Option Nat
  dimensions : QSize
deriving DecidableEq, Repr, Inhabited

/-- The slice of `PhotoData` read by the widget. -/
structure PhotoData where
  width : Int
  height : Int
  loaded : Bool
  largeId : Nat
  thumbnailLoaded : Bool
  thumbnailId : Nat
  thumbnailSmallLoaded : Bool
  thumbnailSmallId : Nat
  thumbnailInline : Option Nat
deriving DecidableEq, Repr, Inhabited

/-- The widget's `_cacheStatus` field. -/
inductive CacheStatus where
  | CacheNotLoaded
  | CacheThumbLoaded
  | CacheLoaded
deriving DecidableEq, Repr, Inhabited

/-- The clip reader pointer `_gif` (`Media::Clip::ReaderPointer`): empty,
marked bad, or holding a reader with its readiness, started flag and frame
dimensions. -/
inductive GifState where
  | empty
  | bad
  | reader (ready : Bool) (started : Bool) (w h : Int)
deriving DecidableEq, Repr, Inhabited

/-- Truthiness of `ReaderPointer` (`operator bool`): a reader is present and
is not the bad marker. -/
def GifState.valid : GifState → Bool
  | .reader _ _ _ _ => true
  | _ => false

/-- The style constants and global scale helpers the widget reads:
`st::boxVerticalMargin`, `st::maxStickerSize`, `style::ConvertScale` and
`cIntRetinaFactor()`.  They are configuration external to the translated
file, so they are parameters of every translated function. -/
structure Style where
  boxVerticalMargin : Int
  maxStickerSize : Int
  convertScale : Int → Int
  retinaFactor : Int

/-- The environment a single widget call observes: whether an existing (or
freshly created) Lottie player currently reports `ready()`, the reader the
factory `Media::Clip::MakeReader` produces, whether gifs are paused for the
media preview reason, and the current time `crl::now()`. -/
structure Env where
  lottieReady : Bool
  madeReader : GifState
  gifPaused : Bool
  now : Nat

/-- The mutable fields of `MediaPreviewWidget` together with the widget
geometry and the two external bits of state it toggles: its own visibility
(`isHidden`) and the controller's MediaPreview gif-pause reason.  The
fade animation `_a_shown` is modelled by whether it is animating and by the
endpoints of the last started run. -/
structure WidgetState where
  width : Int
  height : Int
  origin : Nat
  photo : Option PhotoData
  document : Option DocumentData
  emojiList : List Emoji
  cache : Pixmap
  cacheStatus : CacheStatus
  cachedSize : QSize
  hidingFlag : Bool
  hidden : Bool
  animating : Bool
  shownFrom : Int
  shownTo : Int
  gif : GifState
  lottie : Option Unit
  gifPauseEnabled : Bool
deriving Inhabited

/-- The photo bounding box of `currentDimensions`: the widget size shrunk by
`2 * st::boxVerticalMargin` on each side. -/
def photoBox (st : Style) (s : WidgetState) : QSize :=
  ⟨s.width - 2 * st.boxVerticalMargin, s.height - 2 * st.boxVerticalMargin⟩

/-- The document bounding box of `currentDimensions`: `st::maxStickerSize`
squared for a sticker, twice that on each side otherwise. -/
def docBox (st : Style) (d : DocumentData) : QSize :=
  if d.sticker.isSome then ⟨st.maxStickerSize, st.maxStickerSize⟩
  else ⟨2 * st.maxStickerSize, 2 * st.maxStickerSize⟩

/-- Line 206 of `currentDimensions`: apply `style::ConvertScale` to each
component and clamp it below by 1. -/
def scaleAtLeastOne (st : Style) (r : QSize) : QSize :=
  ⟨max (st.convertScale r.width) 1, max (st.convertScale r.height) 1⟩

/-- Lines 207 to 210 of `currentDimensions`: when the width exceeds the box,
scale the height down proportionally (at least 1) and snap the width to the
box.  C++ integer division truncates toward zero, which is `Int.tdiv`. -/
def fitWidth (result box : QSize) : QSize :=
  if result.width > box.width then
    ⟨box.width, max (Int.tdiv (box.width * result.height) result.width) 1⟩
  else result

/-- Lines 211 to 214 of `currentDimensions`: when the height exceeds the box,
scale the width down proportionally (at least 1) and snap the height to the
box. -/
def fitHeight (result box : QSize) : QSize :=
  if result.height > box.height then
    ⟨max (Int.tdiv (box.height * result.width) result.height) 1, box.height⟩
  else result

/-- Lines 207 to 214 of `currentDimensions`: shrink `result` to fit `box`,
first by width and then by height. -/
def clampToBox (result box : QSize) : QSize :=
  fitHeight (fitWidth result box) box

/-- Embedding of `MediaPreviewWidget::currentDimensions` (lines 182 to 219).
The function is `const` in C++ but writes the `mutable` field `_cachedSize`,
so it returns the updated state next to the computed size.  The inner
`none, none` case of the final `match` is unreachable: it corresponds to the
branch of the C++ code already returned from. -/
def currentDimensions (st : Style) (s : WidgetState) : QSize × WidgetState :=
  if !s.cachedSize.isEmpty then
    (s.cachedSize, s)
  else if s.document.isNone && s.photo.isNone then
    let cs : QSize :=
      ⟨Int.tdiv s.cache.width st.retinaFactor,
       Int.tdiv s.cache.height st.retinaFactor⟩
    (cs, { s with cachedSize := cs })
  else
    let resultAndBox : QSize × QSize :=
      match s.photo with
      | some photo => (⟨photo.width, photo.height⟩, photoBox st s)
      | none =>
        match s.document with
        | some document =>
          let r0 := document.dimensions
          let r1 : QSize :=
            match s.gif with
            | GifState.reader true _ w h => ⟨w, h⟩
            | _ => r0
          (r1, docBox st document)
        | none => (⟨0, 0⟩, ⟨0, 0⟩)
    let result := clampToBox (scaleAtLeastOne st resultAndBox.1) resultAndBox.2
    if s.photo.isSome then (result, { s with cachedSize := result })
    else (result, s)

/-- The constant `kStickerPreviewEmojiLimit` (line 25). -/
def kStickerPreviewEmojiLimit : Nat := 10

/-- The `while` loop of `fillEmojiString` (lines 166 to 168): pop entries off
the back of the list while it is longer than `kStickerPreviewEmojiLimit`. -/
def popBackOverLimit (l : List Emoji) : List Emoji :=
  if h : l.length > kStickerPreviewEmojiLimit then popBackOverLimit l.dropLast
  else l
termination_by l.length
decreasing_by
  simp only [List.length_dropLast]
  omega

/-- Embedding of `MediaPreviewWidget::resetGifAndCache` (lines 175 to 180). -/
def resetGifAndCache (s : WidgetState) : WidgetState :=
  { s with lottie := none, gif := GifState.empty,
           cacheStatus := CacheStatus.CacheNotLoaded,
           cachedSize := QSize.qdefault }

/-- Embedding of `MediaPreviewWidget::fillEmojiString` (lines 158 to 173).
The `none` document case is unreachable from the two callers, which always
set one of the previewed references before calling. -/
def fillEmojiString (s : WidgetState) : WidgetState :=
  let s0 := { s with emojiList := [] }
  if s0.photo.isSome then s0
  else
    match s0.document with
    | none => s0
    | some document =>
      match document.sticker with
      | none => s0
      | some sticker =>
        match document.emojiListFromSet with
        | some list => { s0 with emojiList := popBackOverLimit list }
        | none =>
          match sticker.altEmoji with
          | some emoji => { s0 with emojiList := [emoji] }
          | none => s0

/-- Embedding of `MediaPreviewWidget::setupLottie` (lines 221 to 237): the
frame request evaluates `currentDimensions` and a single player is stored in
`_lottie`; its readiness is observed through the environment. -/
def setupLottie (st : Style) (s : WidgetState) : WidgetState :=
  let s1 := (currentDimensions st s).2
  { s1 with lottie := some () }

/-- Embedding of `MediaPreviewWidget::currentImage` (lines 239 to 318).  The
method is `const` but writes the `mutable` fields `_cache` and `_cacheStatus`
and, through `const_cast`, `_lottie` and `_gif`, so the updated state is
returned next to the pixmap.  Calls that only drive collaborators
(`automaticLoad`, `load`, `setAutoplay`, `markFrameShown`) touch no widget
field and are noted by comments at the corresponding spots. -/
def currentImage (st : Style) (env : Env) (s : WidgetState) : Pixmap × WidgetState :=
  match s.document with
  | some document =>
    match document.sticker with
    | some sticker =>
      if s.cacheStatus ≠ CacheStatus.CacheLoaded then
        let s1 :=
          if sticker.animated = true ∧ s.lottie = none ∧ document.loaded = true then
            setupLottie st s
          else s
        if s1.lottie.isSome = true ∧ env.lottieReady = true then
          (Pixmap.null, s1)
        else
          match document.stickerLarge with
          | some image =>
            let szs := currentDimensions st s1
            let c := Pixmap.sharp image s1.origin szs.1.width szs.1.height
            (c, { szs.2 with cache := c, cacheStatus := CacheStatus.CacheLoaded })
          | none =>
            if s1.cacheStatus ≠ CacheStatus.CacheThumbLoaded
                ∧ document.hasThumbnail = true
                ∧ document.thumbnailLoaded = true then
              let szs := currentDimensions st s1
              let c := Pixmap.blurred document.thumbnailId s1.origin
                szs.1.width szs.1.height
              (c, { szs.2 with cache := c,
                               cacheStatus := CacheStatus.CacheThumbLoaded })
            else
              (s1.cache, s1)
      else (s.cache, s)
    | none =>
      -- document->automaticLoad(origin, nullptr) drives a collaborator only.
      let s1 :=
        if document.loaded = true ∧ s.gif.valid = false ∧ s.gif ≠ GifState.bad then
          -- MakeReader yields env.madeReader; setAutoplay is reader-internal.
          { s with gif := env.madeReader }
        else s
      match s1.gif with
      | GifState.reader _ true _ _ =>
        let szs := currentDimensions st s1
        (Pixmap.gifFrame szs.1.width szs.1.height
          (if env.gifPaused then 0 else env.now), szs.2)
      | _ =>
        if s1.cacheStatus ≠ CacheStatus.CacheThumbLoaded
            ∧ document.hasThumbnail = true then
          let szs := currentDimensions st s1
          if document.thumbnailLoaded = true then
            let c := Pixmap.blurred document.thumbnailId s1.origin
              szs.1.width szs.1.height
            (c, { szs.2 with cache := c,
                             cacheStatus := CacheStatus.CacheThumbLoaded })
          else
            match document.thumbnailInline with
            | some _ =>
              let c := Pixmap.blurred document.thumbnailId s1.origin
                szs.1.width szs.1.height
              (c, { szs.2 with cache := c,
                               cacheStatus := CacheStatus.CacheThumbLoaded })
            | none =>
              -- thumbnail()->load(origin) drives a collaborator only.
              (szs.2.cache, szs.2)
        else (s1.cache, s1)
  | none =>
    match s.photo with
    | some photo =>
      if s.cacheStatus ≠ CacheStatus.CacheLoaded then
        if photo.loaded = true then
          let szs := currentDimensions st s
          let c := Pixmap.sharp photo.largeId s.origin szs.1.width szs.1.height
          (c, { szs.2 with cache := c, cacheStatus := CacheStatus.CacheLoaded })
        else
          -- photo->load(origin) drives a collaborator only.
          if s.cacheStatus ≠ CacheStatus.CacheThumbLoaded then
            let szs := currentDimensions st s
            if photo.thumbnailLoaded = true then
              let c := Pixmap.blurred photo.thumbnailId s.origin
                szs.1.width szs.1.height
              (c, { szs.2 with cache := c,
                               cacheStatus := CacheStatus.CacheThumbLoaded })
            else if photo.thumbnailSmallLoaded = true then
              let c := Pixmap.blurred photo.thumbnailSmallId s.origin
                szs.1.width szs.1.height
              (c, { szs.2 with cache := c,
                               cacheStatus := CacheStatus.CacheThumbLoaded })
            else
              match photo.thumbnailInline with
              | some blurred =>
                let c := Pixmap.blurred blurred s.origin szs.1.width szs.1.height
                (c, { szs.2 with cache := c,
                                 cacheStatus := CacheStatus.CacheThumbLoaded })
              | none =>
                -- thumbnailSmall()->load(origin) drives a collaborator only.
                (szs.2.cache, szs.2)
          else (s.cache, s)
      else (s.cache, s)
    | none => (s.cache, s)

/-- Embedding of `MediaPreviewWidget::startShow` (lines 132 to 144).  The
`update()` call in the else branch only schedules a repaint. -/
def startShow (s : WidgetState) : WidgetState :=
  let s0 := { s with cache := Pixmap.null }
  if s0.hidden = true ∨ s0.animating = true then
    let s1 :=
      if s0.hidden = true then
        { s0 with hidden := false, gifPauseEnabled := true }
      else s0
    { s1 with hidingFlag := false, animating := true, shownFrom := 0, shownTo := 1 }
  else s0

/-- Embedding of `MediaPreviewWidget::hidePreview` (lines 146 to 156). -/
def hidePreview (st : Style) (env : Env) (s : WidgetState) : WidgetState :=
  if s.hidden = true then s
  else
    let s1 :=
      if s.gif.valid = true then
        let pixs := currentImage st env s
        { pixs.2 with cache := pixs.1 }
      else s
    let s2 := { s1 with hidingFlag := true, animating := true,
                        shownFrom := 1, shownTo := 0,
                        photo := none, document := none }
    resetGifAndCache s2

/-- Embedding of the document overload of `MediaPreviewWidget::showPreview`
(lines 103 to 119).  The pointer is `not_null`, so the `!document` part of
the guard is always false and is dropped. -/
def showPreviewDocument (st : Style) (env : Env) (origin : Nat)
    (document : DocumentData) (s : WidgetState) : WidgetState :=
  if (document.isAnimation = false ∧ document.sticker = none)
      ∨ document.isVideoMessage = true then
    hidePreview st env s
  else
    let s1 := startShow s
    let s2 := { s1 with origin := origin, photo := none, document := some document }
    resetGifAndCache (fillEmojiString s2)

/-- Embedding of the photo overload of `MediaPreviewWidget::showPreview`
(lines 121 to 130). -/
def showPreviewPhoto (origin : Nat) (photo : PhotoData) (s : WidgetState) :
    WidgetState :=
  let s1 := startShow s
  let s2 := { s1 with origin := origin, photo := some photo, document := none }
  resetGifAndCache (fillEmojiString s2)

/-- State effects of `MediaPreviewWidget::paintEvent` (lines 48 to 97): when
no ready Lottie frame is available the pixmap comes from `currentImage`
(whose mutations persist), and when the shown animation is not running while
`_hiding` is set the widget hides itself and releases the MediaPreview
gif-pause reason.  All drawing goes to the painter and touches no widget
field. -/
def paintEvent (st : Style) (env : Env) (s : WidgetState) : WidgetState :=
  let lottieFrame := s.lottie.isSome && env.lottieReady
  let s1 := if lottieFrame = true then s else (currentImage st env s).2
  if s1.animating = false then
    if s1.hidingFlag = true then
      { s1 with hidden := true, gifPauseEnabled := false }
    else s1
  else s1

/-- The operations the surrounding application can invoke on the widget, each
carrying the environment the call observes. -/
inductive Op where
  | showDoc (env : Env) (origin : Nat) (document : DocumentData)
  | showPhoto (origin : Nat) (photo : PhotoData)
  | hide (env : Env)
  | paint (env : Env)
  | finishAnim

/-- One widget call. `finishAnim` is the fade animation reaching its target,
after which `_a_shown.animating()` reports false. -/
def step (st : Style) (s : WidgetState) : Op → WidgetState
  | Op.showDoc env origin document => showPreviewDocument st env origin document s
  | Op.showPhoto origin photo => showPreviewPhoto origin photo s
  | Op.hide env => hidePreview st env s
  | Op.paint env => paintEvent st env s
  | Op.finishAnim => { s with animating := false }

/-- The freshly constructed widget: hidden, with no previewed item, a null
bitmap cache, and the gif-pause reason disabled. -/
def initState (w h : Int) : WidgetState :=
  { width := w, height := h, origin := 0, photo := none, document := none,
    emojiList := [], cache := Pixmap.null,
    cacheStatus := CacheStatus.CacheNotLoaded, cachedSize := QSize.qdefault,
    hidingFlag := false, hidden := true, animating := false,
    shownFrom := 0, shownTo := 0, gif := GifState.empty, lottie := none,
    gifPauseEnabled := false }

/-- Run a sequence of widget calls. -/
def run (st : Style) (s : WidgetState) : List Op → WidgetState
  | [] => s
  | op :: ops => run st (step st s op) ops

/-- A size fits a bounding box with both components at least 1. -/
def FitsIn (r box : QSize) : Prop :=
  1 ≤ r.width ∧ 1 ≤ r.height ∧ r.width ≤ box.width ∧ r.height ≤ box.height

/-- The size `currentDimensions` computes for a photo from scratch. -/
def photoFitted (st : Style) (s : WidgetState) (p : PhotoData) : QSize :=
  clampToBox (scaleAtLeastOne st ⟨p.width, p.height⟩) (photoBox st s)

/-- The size `currentDimensions` computes for a document from scratch:
the document dimensions (or the running gif frame size) scaled and clamped
to the document box. -/
def docFitted (st : Style) (s : WidgetState) (d : DocumentData) : QSize :=
  let r1 : QSize :=
    match s.gif with
    | GifState.reader true _ w h => ⟨w, h⟩
    | _ => d.dimensions
  clampToBox (scaleAtLeastOne st r1) (docBox st d)

/-- Size-cache invariant: `_cachedSize` is still empty, or it is exactly the
fitted size stored for the currently previewed photo under the current
geometry, or nothing is previewed at all (in which case its value is not
consulted by the claims). -/
def sizeCacheInv (st : Style) (s : WidgetState) : Prop :=
  s.cachedSize.isEmpty = true ∨
    (∃ p, s.photo = some p ∧ s.cachedSize = photoFitted st s p) ∨
    (s.photo = none ∧ s.document = none)

/-- The emoji list `fillEmojiString` leaves in `_emojiList` when a document
is previewed: the truncated set-provided list, else the single emoji found
from the sticker alt text, else nothing. -/
def emojiFor (d : DocumentData) : List Emoji :=
  match d.sticker with
  | none => []
  | some sticker =>
    match d.emojiListFromSet with
    | some list => popBackOverLimit list
    | none =>
      match sticker.altEmoji with
      | some emoji => [emoji]
      | none => []

/-- A style with identity scale, margin 10 and maximum sticker size 256,
used for concrete instantiations. -/
def sampleStyle : Style :=
  { boxVerticalMargin := 10, maxStickerSize := 256,
    convertScale := fun v => v, retinaFactor := 1 }

/-- An environment in which no collaborator produces anything. -/
def quietEnv : Env :=
  { lottieReady := false, madeReader := GifState.empty, gifPaused := false,
    now := 7 }

/-- A 100 by 100 unloaded photo. -/
def samplePhoto : PhotoData :=
  { width := 100, height := 100, loaded := false, largeId := 1,
    thumbnailLoaded := false, thumbnailId := 2,
    thumbnailSmallLoaded := false, thumbnailSmallId := 3,
    thumbnailInline := none }

/-- A static sticker document. -/
def sampleSticker : DocumentData :=
  { isAnimation := false, isVideoMessage := false,
    sticker := some { animated := false, altEmoji := none },
    emojiListFromSet := none, loaded := false, stickerLarge := none,
    hasThumbnail := false, thumbnailLoaded := false, thumbnailId := 0,
    thumbnailInline := none, dimensions := ⟨512, 512⟩ }

/-- A document that is neither an animation nor a sticker. -/
def plainDocument : DocumentData :=
  { sampleSticker with sticker := none }

/-- A call sequence that leaves the widget hidden while `_document` is still
set: show a photo, hide it, let the fade-out finish, show a sticker in the
gap before the next paint (so `_hiding` stays true), then paint once. -/
def cornerOps : List Op :=
  [Op.showPhoto 0 samplePhoto, Op.hide quietEnv, Op.finishAnim,
   Op.showDoc quietEnv 0 sampleSticker, Op.paint quietEnv]

/-- The state reached by `cornerOps` from a fresh 500 by 400 widget. -/
def cornerState : WidgetState :=
  run sampleStyle (initState 500 400) cornerOps

/-- The state just before the final paint of `cornerOps`: still visible, with
`_hiding` set and the fade animation already finished. -/
def preHideState : WidgetState :=
  run sampleStyle (initState 500 400) (cornerOps.take 4)

/-- A visible widget state previewing `samplePhoto` on a 20 by 20 widget,
whose photo box is degenerate (zero by zero). -/
def degenerateState : WidgetState :=
  { initState 20 20 with photo := some samplePhoto, hidden := false }

/-- A visible widget state previewing `sampleSticker` on a 500 by 400
widget. -/
def stickerState : WidgetState :=
  { initState 500 400 with document := some sampleSticker, hidden := false }

end MediaPreview

namespace UiPlatform

/-- Stand-in for a `QPainter` argument. -/
structure QPainter where
  deviceId : Nat

/-- Stand-in for a `QPaintEvent` argument. -/
structure QPaintEvent where
  rectId : Nat

/-- Stand-in for a `not_null<QWidget*>` argument. -/
structure WidgetHandle where
  winId : Nat

/-- Embedding of `Ui::Platform::StartTranslucentPaint` from
`ui_platform_utility_linux.h`: the body is empty, so any surrounding state
`world` is returned unchanged. -/
def StartTranslucentPaint {W : Type} (p : QPainter) (e : QPaintEvent)
    (world : W) : W :=
  world

/-- Embedding of `Ui::Platform::InitOnTopPanel`: empty body. -/
def InitOnTopPanel {W : Type} (panel : WidgetHandle) (world : W) : W :=
  world

/-- Embedding of `Ui::Platform::DeInitOnTopPanel`: empty body. -/
def DeInitOnTopPanel {W : Type} (panel : WidgetHandle) (world : W) : W :=
  world

/-- Embedding of `Ui::Platform::ReInitOnTopPanel`: empty body. -/
def ReInitOnTopPanel {W : Type} (panel : WidgetHandle) (world : W) : W :=
  world

/-- Embedding of `Ui::Platform::UpdateOverlayed`: empty body. -/
def UpdateOverlayed {W : Type} (widget : WidgetHandle) (world : W) : W :=
  world

/-- Embedding of `Ui::Platform::ShowOverAll`: empty body. -/
def ShowOverAll {W : Type} (widget : WidgetHandle) (canFocus : Bool)
    (world : W) : W :=
  world

/-- Embedding of `Ui::Platform::BringToBack`: empty body. -/
def BringToBack {W : Type} (widget : WidgetHandle) (world : W) : W :=
  world

/-- Embedding of `Ui::Platform::UseMainQueueGeneric`: constexpr true. -/
def UseMainQueueGeneric : Bool := true

end UiPlatform

namespace MediaPreview

/-- Truncating division is monotone in the numerator on nonnegative
numerators. -/
theorem tdiv_mono_nonneg {a b c : Int} (ha : 0 ≤ a) (hab : a ≤ b)
    (hc : 0 < c) : Int.tdiv a c ≤ Int.tdiv b c := by
  rw [Int.tdiv_eq_ediv ha (le_of_lt hc),
    Int.tdiv_eq_ediv (le_trans ha hab) (le_of_lt hc)]
  exact Int.ediv_le_ediv hc hab

/-- Scaling `w` by a factor `k / m` with `k < m` does not increase it. -/
theorem tdiv_mul_le {k m w : Int} (hk : 0 ≤ k) (hkm : k < m) (hw : 0 ≤ w) :
    Int.tdiv (k * w) m ≤ w := by
  have hm : 0 < m := lt_of_le_of_lt hk hkm
  have h2 : Int.tdiv (k * w) m ≤ Int.tdiv (m * w) m :=
    tdiv_mono_nonneg (mul_nonneg hk hw)
      (mul_le_mul_of_nonneg_right (le_of_lt hkm) hw) hm
  rwa [Int.mul_tdiv_cancel_left w (ne_of_gt hm)] at h2

/-- After the width pass both components stay at least 1 and the width is
within the box. -/
theorem fitWidth_bounds {r box : QSize} (hw : 1 ≤ r.width) (hh : 1 ≤ r.height)
    (hbw : 1 ≤ box.width) :
    1 ≤ (fitWidth r box).width ∧ 1 ≤ (fitWidth r box).height ∧
      (fitWidth r box).width ≤ box.width := by
  unfold fitWidth
  split
  · exact ⟨hbw, le_max_right _ 1, le_refl _⟩
  · next hle => exact ⟨hw, hh, by omega⟩

/-- After the height pass the size fits the box entirely. -/
theorem fitHeight_fits {r box : QSize} (hw : 1 ≤ r.width) (hh : 1 ≤ r.height)
    (hwb : r.width ≤ box.width) (hbh : 1 ≤ box.height) :
    FitsIn (fitHeight r box) box := by
  unfold fitHeight FitsIn
  split
  · next hgt =>
    refine ⟨le_max_right _ 1, hbh, ?_, le_refl _⟩
    have hd : Int.tdiv (box.height * r.width) r.height ≤ r.width :=
      tdiv_mul_le (by omega) hgt (by omega)
    exact max_le (le_trans hd hwb) (le_trans hw hwb)
  · next hle => exact ⟨hw, hh, hwb, by omega⟩

/-- Lines 206 to 214 of `currentDimensions` always produce a size that fits
a box whose sides are at least 1. -/
theorem clampToBox_fits {r box : QSize} (hw : 1 ≤ r.width) (hh : 1 ≤ r.height)
    (hbw : 1 ≤ box.width) (hbh : 1 ≤ box.height) :
    FitsIn (clampToBox r box) box := by
  obtain ⟨h1, h2, h3⟩ := fitWidth_bounds hw hh hbw
  exact fitHeight_fits h1 h2 h3 hbh

/-- The scale step of line 206 clamps both components below by 1. -/
theorem scaleAtLeastOne_bounds (st : Style) (r : QSize) :
    1 ≤ (scaleAtLeastOne st r).width ∧ 1 ≤ (scaleAtLeastOne st r).height :=
  ⟨le_max_right _ 1, le_max_right _ 1⟩

/-- The only field `currentDimensions` may write is `_cachedSize`. -/
theorem currentDimensions_shape (st : Style) (s : WidgetState) :
    ∃ cs, (currentDimensions st s).2 = { s with cachedSize := cs } := by
  unfold currentDimensions
  repeat' split
  all_goals exact ⟨_, rfl⟩

/-- The value `currentDimensions` leaves in `_cachedSize`: unchanged, or the
cache-derived size when nothing is previewed, or the fitted photo size. -/
theorem currentDimensions_cachedSize (st : Style) (s : WidgetState) :
    (currentDimensions st s).2.cachedSize = s.cachedSize ∨
      (s.photo.isNone = true ∧ s.document.isNone = true) ∨
      ∃ p, s.photo = some p ∧
        (currentDimensions st s).2.cachedSize = photoFitted st s p := by
  unfold currentDimensions
  repeat' split
  all_goals try (left; rfl)
  all_goals try (simp_all; done)
  all_goals (rename_i photo heq hsome; exact Or.inr (Or.inr ⟨photo, heq, rfl⟩))

/-- All widget fields other than `_cachedSize` survive `currentDimensions`. -/
theorem currentDimensions_preserves (st : Style) (s : WidgetState) :
    (currentDimensions st s).2.photo = s.photo ∧
    (currentDimensions st s).2.document = s.document ∧
    (currentDimensions st s).2.width = s.width ∧
    (currentDimensions st s).2.height = s.height ∧
    (currentDimensions st s).2.hidden = s.hidden ∧
    (currentDimensions st s).2.hidingFlag = s.hidingFlag ∧
    (currentDimensions st s).2.animating = s.animating ∧
    (currentDimensions st s).2.emojiList = s.emojiList ∧
    (currentDimensions st s).2.gifPauseEnabled = s.gifPauseEnabled ∧
    (currentDimensions st s).2.shownFrom = s.shownFrom ∧
    (currentDimensions st s).2.shownTo = s.shownTo ∧
    (currentDimensions st s).2.gif = s.gif ∧
    (currentDimensions st s).2.lottie = s.lottie ∧
    (currentDimensions st s).2.cache = s.cache := by
  obtain ⟨cs, h⟩ := currentDimensions_shape st s
  rw [h]
  repeat' constructor

/-- The fields `currentImage` never writes: geometry, previewed references,
visibility, fade state, emoji list and the pause reason. -/
theorem currentImage_preserves (st : Style) (env : Env) (s : WidgetState) :
    (currentImage st env s).2.photo = s.photo ∧
    (currentImage st env s).2.document = s.document ∧
    (currentImage st env s).2.width = s.width ∧
    (currentImage st env s).2.height = s.height ∧
    (currentImage st env s).2.hidden = s.hidden ∧
    (currentImage st env s).2.hidingFlag = s.hidingFlag ∧
    (currentImage st env s).2.animating = s.animating ∧
    (currentImage st env s).2.emojiList = s.emojiList ∧
    (currentImage st env s).2.gifPauseEnabled = s.gifPauseEnabled ∧
    (currentImage st env s).2.shownFrom = s.shownFrom ∧
    (currentImage st env s).2.shownTo = s.shownTo := by
  unfold currentImage setupLottie
  dsimp only
  repeat' split
  all_goals simp [currentDimensions_preserves]

/-- One `currentDimensions` call preserves the size-cache invariant. -/
theorem currentDimensions_sizeCacheInv (st : Style) (s : WidgetState)
    (h : sizeCacheInv st s) :
    sizeCacheInv st (currentDimensions st s).2 := by
  unfold currentDimensions
  repeat' split
  all_goals try exact h
  all_goals try (rename_i photo heq hsome; exact Or.inr (Or.inl ⟨photo, heq, rfl⟩))
  all_goals (right; right; constructor <;> simp_all [Option.isNone_iff_eq_none])

/-- The size-cache invariant also survives a `currentDimensions` call whose
result state gets its bitmap cache and cache status overwritten. -/
theorem sizeCacheInv_afterDims (st : Style) (s1 : WidgetState) (c : Pixmap)
    (x : CacheStatus) (h : sizeCacheInv st s1) :
    sizeCacheInv st
      { (currentDimensions st s1).2 with cache := c, cacheStatus := x } := by
  have h2 := currentDimensions_sizeCacheInv st s1 h
  exact h2

/-- The size-cache invariant survives `setupLottie`, which is a
`currentDimensions` call followed by storing the new player. -/
theorem sizeCacheInv_afterDimsLottie (st : Style) (s1 : WidgetState)
    (l : Option Unit) (h : sizeCacheInv st s1) :
    sizeCacheInv st { (currentDimensions st s1).2 with lottie := l } := by
  have h2 := currentDimensions_sizeCacheInv st s1 h
  exact h2

/-- One `currentImage` call preserves the size-cache invariant. -/
theorem currentImage_sizeCacheInv (st : Style) (env : Env) (s : WidgetState)
    (h : sizeCacheInv st s) :
    sizeCacheInv st (currentImage st env s).2 := by
  unfold currentImage setupLottie
  dsimp only
  repeat' split
  all_goals first
    | exact h
    | exact currentDimensions_sizeCacheInv st _ h
    | exact sizeCacheInv_afterDims st _ _ _ h
    | exact sizeCacheInv_afterDimsLottie st _ _ h
    | exact currentDimensions_sizeCacheInv st _ (sizeCacheInv_afterDimsLottie st _ _ h)

end MediaPreview

namespace MediaPreview

theorem fillEmojiString_shape (s : WidgetState) :
    ∃ el, fillEmojiString s = { s with emojiList := el } := by
  unfold fillEmojiString
  dsimp only
  repeat' split
  all_goals exact ⟨_, rfl⟩

theorem fillEmojiString_photo (s : WidgetState) :
    (fillEmojiString s).photo = s.photo := by
  obtain ⟨el, h⟩ := fillEmojiString_shape s
  rw [h]

theorem fillEmojiString_document (s : WidgetState) :
    (fillEmojiString s).document = s.document := by
  obtain ⟨el, h⟩ := fillEmojiString_shape s
  rw [h]

theorem paintEvent_preserves (st : Style) (env : Env) (s : WidgetState) :
    (paintEvent st env s).photo = s.photo ∧
    (paintEvent st env s).document = s.document ∧
    (paintEvent st env s).width = s.width ∧
    (paintEvent st env s).height = s.height ∧
    (paintEvent st env s).emojiList = s.emojiList ∧
    (paintEvent st env s).animating = s.animating ∧
    (paintEvent st env s).hidingFlag = s.hidingFlag ∧
    (paintEvent st env s).shownFrom = s.shownFrom ∧
    (paintEvent st env s).shownTo = s.shownTo := by
  unfold paintEvent
  dsimp only
  repeat' split
  all_goals simp [currentImage_preserves]

theorem paintEvent_hidden (st : Style) (env : Env) (s : WidgetState) :
    (paintEvent st env s).hidden =
      if s.animating = false ∧ s.hidingFlag = true then true else s.hidden := by
  unfold paintEvent
  dsimp only
  repeat' split
  all_goals simp_all [currentImage_preserves]

theorem paintEvent_gifPause (st : Style) (env : Env) (s : WidgetState) :
    (paintEvent st env s).gifPauseEnabled =
      if s.animating = false ∧ s.hidingFlag = true then false
      else s.gifPauseEnabled := by
  unfold paintEvent
  dsimp only
  repeat' split
  all_goals simp_all [currentImage_preserves]

theorem step_sizeCacheInv (st : Style) (s : WidgetState) (op : Op)
    (h : sizeCacheInv st s) : sizeCacheInv st (step st s op) := by
  cases op with
  | showDoc env origin document =>
    simp only [step]
    unfold showPreviewDocument
    split
    · unfold hidePreview
      split
      · exact h
      · left; rfl
    · left; rfl
  | showPhoto origin photo =>
    left; rfl
  | hide env =>
    simp only [step]
    unfold hidePreview
    split
    · exact h
    · left; rfl
  | paint env =>
    simp only [step]
    unfold paintEvent
    dsimp only
    split
    · split
      · split
        · exact h
        · exact h
      · exact h
    · have h1 := currentImage_sizeCacheInv st env s h
      split
      · split
        · exact h1
        · exact h1
      · exact h1
  | finishAnim =>
    exact h

theorem run_sizeCacheInv (st : Style) (s : WidgetState) (ops : List Op)
    (h : sizeCacheInv st s) : sizeCacheInv st (run st s ops) := by
  induction ops generalizing s with
  | nil => exact h
  | cons op ops ih => exact ih _ (step_sizeCacheInv st s op h)

theorem step_refs (st : Style) (s : WidgetState) (op : Op)
    (h : s.photo = none ∨ s.document = none) :
    (step st s op).photo = none ∨ (step st s op).document = none := by
  cases op with
  | showDoc env origin document =>
    simp only [step]
    unfold showPreviewDocument
    split
    · unfold hidePreview
      split
      · exact h
      · left; rfl
    · left; simp [resetGifAndCache, fillEmojiString_photo]
  | showPhoto origin photo =>
    right; simp [step, showPreviewPhoto, resetGifAndCache, fillEmojiString_document]
  | hide env =>
    simp only [step]
    unfold hidePreview
    split
    · exact h
    · left; rfl
  | paint env =>
    rcases h with hp | hd
    · left; simp only [step]; rw [(paintEvent_preserves st env s).1]; exact hp
    · right; simp only [step]; rw [(paintEvent_preserves st env s).2.1]; exact hd
  | finishAnim =>
    exact h

end MediaPreview

namespace MediaPreview

theorem run_refs (st : Style) (s : WidgetState) (ops : List Op)
    (h : s.photo = none ∨ s.document = none) :
    (run st s ops).photo = none ∨ (run st s ops).document = none := by
  induction ops generalizing s with
  | nil => exact h
  | cons op ops ih => exact ih _ (step_refs st s op h)

theorem photoFitted_fits (st : Style) (s : WidgetState) (p : PhotoData)
    (hbw : 1 ≤ (photoBox st s).width) (hbh : 1 ≤ (photoBox st s).height) :
    FitsIn (photoFitted st s p) (photoBox st s) :=
  clampToBox_fits (le_max_right _ 1) (le_max_right _ 1) hbw hbh

theorem docFitted_fits (st : Style) (s : WidgetState) (d : DocumentData)
    (hms : 1 ≤ st.maxStickerSize) :
    FitsIn (docFitted st s d) (docBox st d) := by
  have hbw : 1 ≤ (docBox st d).width := by
    unfold docBox; split <;> dsimp only <;> omega
  have hbh : 1 ≤ (docBox st d).height := by
    unfold docBox; split <;> dsimp only <;> omega
  unfold docFitted
  exact clampToBox_fits (le_max_right _ 1) (le_max_right _ 1) hbw hbh

theorem currentDimensions_photo_empty (st : Style) (s : WidgetState)
    (p : PhotoData) (hp : s.photo = some p)
    (hE : s.cachedSize.isEmpty = true) :
    currentDimensions st s =
      (photoFitted st s p, { s with cachedSize := photoFitted st s p }) := by
  unfold currentDimensions
  simp [hE, hp, photoFitted]

theorem currentDimensions_photo_full (st : Style) (s : WidgetState)
    (p : PhotoData) (hp : s.photo = some p) (hinv : sizeCacheInv st s) :
    currentDimensions st s =
      (photoFitted st s p, { s with cachedSize := photoFitted st s p }) := by
  rcases hinv with hE | ⟨q, hq, hfit⟩ | ⟨hpn, hdn⟩
  · exact currentDimensions_photo_empty st s p hp hE
  · rw [hq] at hp
    cases hp
    by_cases hE : s.cachedSize.isEmpty = true
    · exact currentDimensions_photo_empty st s p hq hE
    · unfold currentDimensions
      rw [if_pos (by simp [hE])]
      rw [← hfit]
  · rw [hp] at hpn
    cases hpn

theorem currentDimensions_doc_empty (st : Style) (s : WidgetState)
    (d : DocumentData) (hpn : s.photo = none) (hd : s.document = some d)
    (hE : s.cachedSize.isEmpty = true) :
    currentDimensions st s = (docFitted st s d, s) := by
  unfold currentDimensions
  simp [hE, hpn, hd, docFitted]

end MediaPreview

namespace MediaPreview

theorem popBackOverLimit_take_aux : ∀ (n : Nat) (l : List Emoji),
    l.length = n → popBackOverLimit l = l.take kStickerPreviewEmojiLimit := by
  intro n
  induction n using Nat.strong_induction_on with
  | _ n ih =>
    intro l hn
    rw [popBackOverLimit]
    split
    · next hgt =>
      rw [ih l.dropLast.length (by simp [List.length_dropLast]; omega)
        l.dropLast rfl]
      rw [List.dropLast_eq_take, List.take_take]
      congr 1
      omega
    · next hle =>
      rw [List.take_of_length_le]
      omega

theorem popBackOverLimit_eq_take (l : List Emoji) :
    popBackOverLimit l = l.take kStickerPreviewEmojiLimit :=
  popBackOverLimit_take_aux l.length l rfl

end MediaPreview

namespace MediaPreview

theorem startShow_hidden (s : WidgetState) : (startShow s).hidden = false := by
  unfold startShow
  dsimp only
  repeat' split
  all_goals simp_all

theorem startShow_cache (s : WidgetState) : (startShow s).cache = Pixmap.null := by
  unfold startShow
  dsimp only
  repeat' split
  all_goals rfl

theorem startShow_starts (s : WidgetState)
    (h : s.hidden = true ∨ s.animating = true) :
    (startShow s).hidingFlag = false ∧ (startShow s).animating = true ∧
    (startShow s).shownFrom = 0 ∧ (startShow s).shownTo = 1 := by
  unfold startShow
  dsimp only
  rw [if_pos h]
  split
  all_goals exact ⟨rfl, rfl, rfl, rfl⟩

theorem startShow_wasHidden (s : WidgetState) (h : s.hidden = true) :
    (startShow s).gifPauseEnabled = true := by
  unfold startShow
  dsimp only
  rw [if_pos (Or.inl h), if_pos h]

theorem hidePreview_starts (st : Style) (env : Env) (s : WidgetState)
    (h : s.hidden = false) :
    (hidePreview st env s).hidingFlag = true ∧
    (hidePreview st env s).animating = true ∧
    (hidePreview st env s).shownFrom = 1 ∧
    (hidePreview st env s).shownTo = 0 ∧
    (hidePreview st env s).photo = none ∧
    (hidePreview st env s).document = none := by
  unfold hidePreview
  rw [if_neg (by simp [h])]
  dsimp only
  split
  all_goals exact ⟨rfl, rfl, rfl, rfl, rfl, rfl⟩

theorem fillEmojiString_other (s : WidgetState) :
    (fillEmojiString s).hidden = s.hidden ∧
    (fillEmojiString s).hidingFlag = s.hidingFlag ∧
    (fillEmojiString s).animating = s.animating ∧
    (fillEmojiString s).shownFrom = s.shownFrom ∧
    (fillEmojiString s).shownTo = s.shownTo ∧
    (fillEmojiString s).origin = s.origin ∧
    (fillEmojiString s).gifPauseEnabled = s.gifPauseEnabled := by
  obtain ⟨el, h⟩ := fillEmojiString_shape s
  rw [h]
  exact ⟨rfl, rfl, rfl, rfl, rfl, rfl, rfl⟩

theorem fillEmojiString_doc (s : WidgetState) (d : DocumentData)
    (hp : s.photo = none) (hd : s.document = some d) :
    (fillEmojiString s).emojiList = emojiFor d := by
  unfold fillEmojiString emojiFor
  dsimp only
  simp only [hp, hd, Option.isSome_none, Bool.false_eq_true, if_false]
  repeat' split
  all_goals simp_all

end MediaPreview

open MediaPreview

/-- C4: after any sequence of widget calls starting from the fresh widget, at
most one of the previewed references `_photo` and `_document` is set: at
least one of them is null. -/
theorem C4_at_most_one_reference (st : Style) (w h : Int) (ops : List Op) :
    (run st (initState w h) ops).photo = none ∨
    (run st (initState w h) ops).document = none :=
  run_refs st (initState w h) ops (Or.inl rfl)

/-- C6: every function in the Linux platform utility header is a no-op or
returns success: the seven procedures return the ambient state unchanged for
every input, and `UseMainQueueGeneric` returns true. -/
theorem C6_platform_stubs :
    (∀ (W : Type) (p : UiPlatform.QPainter) (e : UiPlatform.QPaintEvent)
        (world : W), UiPlatform.StartTranslucentPaint p e world = world) ∧
    (∀ (W : Type) (panel : UiPlatform.WidgetHandle) (world : W),
        UiPlatform.InitOnTopPanel panel world = world) ∧
    (∀ (W : Type) (panel : UiPlatform.WidgetHandle) (world : W),
        UiPlatform.DeInitOnTopPanel panel world = world) ∧
    (∀ (W : Type) (panel : UiPlatform.WidgetHandle) (world : W),
        UiPlatform.ReInitOnTopPanel panel world = world) ∧
    (∀ (W : Type) (widget : UiPlatform.WidgetHandle) (world : W),
        UiPlatform.UpdateOverlayed widget world = world) ∧
    (∀ (W : Type) (widget : UiPlatform.WidgetHandle) (canFocus : Bool)
        (world : W), UiPlatform.ShowOverAll widget canFocus world = world) ∧
    (∀ (W : Type) (widget : UiPlatform.WidgetHandle) (world : W),
        UiPlatform.BringToBack widget world = world) ∧
    UiPlatform.UseMainQueueGeneric = true :=
  ⟨fun _ _ _ _ => rfl, fun _ _ _ => rfl, fun _ _ _ => rfl, fun _ _ _ => rfl,
   fun _ _ _ => rfl, fun _ _ _ _ => rfl, fun _ _ _ => rfl, rfl⟩

/-- C9: hidePreview on an already hidden widget returns immediately and
leaves every widget field unchanged. -/
theorem C9_hide_when_hidden_noop (st : Style) (env : Env) (s : WidgetState)
    (h : s.hidden = true) : hidePreview st env s = s := by
  unfold hidePreview
  rw [if_pos h]

/-- C9 witness: the property instantiated on the freshly created widget. -/
theorem C9_hide_when_hidden_noop_witness :
    (initState 500 400).hidden = true ∧
    hidePreview sampleStyle quietEnv (initState 500 400) = initState 500 400 :=
  ⟨rfl, C9_hide_when_hidden_noop sampleStyle quietEnv (initState 500 400) rfl⟩

/-- C7: after `fillEmojiString` the emoji list has at most
`kStickerPreviewEmojiLimit` entries; it is empty for a photo, it is the
set-provided list truncated from the back to the limit when one exists, and
it has at most one entry otherwise. -/
theorem C7_emoji_list_limit (s : WidgetState) :
    ((fillEmojiString s).emojiList.length ≤ kStickerPreviewEmojiLimit) ∧
    (s.photo.isSome = true → (fillEmojiString s).emojiList = []) ∧
    (∀ d list, s.photo = none → s.document = some d →
      d.sticker.isSome = true → d.emojiListFromSet = some list →
      (fillEmojiString s).emojiList = list.take kStickerPreviewEmojiLimit) ∧
    (∀ d, s.photo = none → s.document = some d → d.emojiListFromSet = none →
      (fillEmojiString s).emojiList.length ≤ 1) := by
  refine ⟨?_, ?_, ?_, ?_⟩
  · unfold fillEmojiString
    dsimp only
    repeat' split
    all_goals simp_all [popBackOverLimit_eq_take, kStickerPreviewEmojiLimit]
  · intro hp
    unfold fillEmojiString
    dsimp only
    simp [hp]
  · intro d list hp hd hs hset
    obtain ⟨sk, hsk⟩ := Option.isSome_iff_exists.mp hs
    unfold fillEmojiString
    dsimp only
    simp [hp, hd, hsk, hset, popBackOverLimit_eq_take]
  · intro d hp hd hset
    unfold fillEmojiString
    dsimp only
    simp only [hp, hd, Option.isSome_none, Bool.false_eq_true, if_false]
    repeat' split
    all_goals simp_all

/-- C7 witness: a sticker with a 15-element set list is truncated to 10. -/
theorem C7_emoji_list_limit_witness :
    (fillEmojiString { stickerState with document := some ({ sampleSticker with emojiListFromSet := some (List.range 15) }) }).emojiList
      = (List.range 15).take kStickerPreviewEmojiLimit :=
  (C7_emoji_list_limit _).2.2.1 _ (List.range 15) rfl rfl rfl rfl

open MediaPreview

/-- C5: the preview fades in and out.  On a hidden or still-animating widget,
startShow clears the cached bitmap, clears `_hiding` and starts the shown
animation toward 1, showing the widget and enabling the MediaPreview
gif-pause reason when it was hidden; hidePreview on a visible widget sets
`_hiding` and starts the animation from 1 toward 0; and a paint actually
hides the widget and releases the pause reason exactly when the animation is
no longer running while `_hiding` is set. -/
theorem C5_fade_lifecycle (st : Style) (env : Env) :
    (∀ s : WidgetState, s.hidden = true ∨ s.animating = true →
      (startShow s).cache = Pixmap.null ∧
      (startShow s).hidingFlag = false ∧ (startShow s).animating = true ∧
      (startShow s).shownFrom = 0 ∧ (startShow s).shownTo = 1) ∧
    (∀ s : WidgetState, s.hidden = true →
      (startShow s).hidden = false ∧ (startShow s).gifPauseEnabled = true) ∧
    (∀ s : WidgetState, s.hidden = false →
      (hidePreview st env s).hidingFlag = true ∧
      (hidePreview st env s).animating = true ∧
      (hidePreview st env s).shownFrom = 1 ∧
      (hidePreview st env s).shownTo = 0) ∧
    (∀ s : WidgetState, s.hidden = false →
      ((paintEvent st env s).hidden = true ↔
        s.animating = false ∧ s.hidingFlag = true)) ∧
    (∀ s : WidgetState, s.animating = false → s.hidingFlag = true →
      (paintEvent st env s).gifPauseEnabled = false) := by
  refine ⟨?_, ?_, ?_, ?_, ?_⟩
  · intro s hs
    obtain ⟨h1, h2, h3, h4⟩ := startShow_starts s hs
    exact ⟨startShow_cache s, h1, h2, h3, h4⟩
  · intro s hs
    exact ⟨startShow_hidden s, startShow_wasHidden s hs⟩
  · intro s hs
    obtain ⟨h1, h2, h3, h4, _, _⟩ := hidePreview_starts st env s hs
    exact ⟨h1, h2, h3, h4⟩
  · intro s hs
    rw [paintEvent_hidden]
    by_cases hc : s.animating = false ∧ s.hidingFlag = true
    · simp [hc]
    · simp [hc, hs]
  · intro s h1 h2
    rw [paintEvent_gifPause]
    simp [h1, h2]

/-- C5 witness: the lifecycle facts instantiated on the fresh widget, the
widget right after startShow, and the corner state reached by `cornerOps`. -/
theorem C5_fade_lifecycle_witness :
    ((startShow (initState 500 400)).hidingFlag = false ∧
      (startShow (initState 500 400)).animating = true) ∧
    (startShow (initState 500 400)).hidden = false ∧
    (hidePreview sampleStyle quietEnv (startShow (initState 500 400))).hidingFlag
      = true ∧
    ((paintEvent sampleStyle quietEnv preHideState).hidden = true ↔
      preHideState.animating = false ∧ preHideState.hidingFlag = true) ∧
    (paintEvent sampleStyle quietEnv preHideState).gifPauseEnabled = false := by
  have h := C5_fade_lifecycle sampleStyle quietEnv
  refine ⟨?_, ?_, ?_, ?_, ?_⟩
  · obtain ⟨_, h1, h2, _, _⟩ := h.1 (initState 500 400) (Or.inl rfl)
    exact ⟨h1, h2⟩
  · exact (h.2.1 (initState 500 400) rfl).1
  · exact (h.2.2.1 (startShow (initState 500 400)) (by decide)).1
  · exact h.2.2.2.1 preHideState (by decide)
  · exact h.2.2.2.2 preHideState (by decide) (by decide)

open MediaPreview

/-- C8: for a photo with the size cache still empty, the first
`currentDimensions` call stores the computed size in `_cachedSize`, and a
second call in the unchanged state returns the same size and state; for a
document the state, including `_cachedSize`, is never written. -/
theorem C8_size_caching (st : Style) (s : WidgetState)
    (hE : s.cachedSize.isEmpty = true) :
    (∀ p, s.photo = some p →
      (currentDimensions st s).2.cachedSize = (currentDimensions st s).1 ∧
      currentDimensions st (currentDimensions st s).2 =
        ((currentDimensions st s).1, (currentDimensions st s).2)) ∧
    (∀ d, s.photo = none → s.document = some d →
      (currentDimensions st s).2 = s) := by
  constructor
  · intro p hp
    rw [currentDimensions_photo_empty st s p hp hE]
    refine ⟨rfl, ?_⟩
    rw [currentDimensions_photo_full st { s with cachedSize := photoFitted st s p } p hp (Or.inr (Or.inl ⟨p, hp, rfl⟩))]
    exact rfl
  · intro d hp hd
    rw [currentDimensions_doc_empty st s d hp hd hE]

/-- C8 witness: the caching facts at a concrete photo state and a concrete
sticker state. -/
theorem C8_size_caching_witness :
    degenerateState.cachedSize.isEmpty = true ∧
    (currentDimensions sampleStyle degenerateState).2.cachedSize =
      (currentDimensions sampleStyle degenerateState).1 ∧
    stickerState.photo = none ∧ stickerState.document = some sampleSticker ∧
    (currentDimensions sampleStyle stickerState).2 = stickerState :=
  ⟨rfl,
   ((C8_size_caching sampleStyle degenerateState rfl).1 samplePhoto rfl).1,
   rfl, rfl,
   (C8_size_caching sampleStyle stickerState rfl).2 sampleSticker rfl rfl⟩

open MediaPreview

/-- C1 counterexample: on a 20 by 20 widget with `st::boxVerticalMargin` 10
the photo box is zero by zero, and `currentDimensions` for a previewed 100 by
100 photo returns height 0, so the returned height is not at least 1 as the
claim states. -/
theorem C1_counterexample :
    degenerateState.photo = some samplePhoto ∧
    (currentDimensions sampleStyle degenerateState).1.height = 0 ∧
    ¬(1 ≤ (currentDimensions sampleStyle degenerateState).1.height) := by
  refine ⟨rfl, rfl, ?_⟩
  intro hcontra
  rw [show (currentDimensions sampleStyle degenerateState).1.height = 0 from rfl]
    at hcontra
  omega

/-- C1 amended: in every state the widget can reach, the size computed by
`currentDimensions` for the previewed item fits the applicable bounding box
and has both components at least 1, provided the bounding box itself has both
sides at least 1 (for a photo this means the widget exceeds
`2 * st::boxVerticalMargin` in each direction; for documents it holds
whenever `st::maxStickerSize` is at least 1). -/
theorem C1_dimensions_fit (st : Style) (w h : Int) (ops : List Op)
    (hms : 1 ≤ st.maxStickerSize) :
    (∀ p, (run st (initState w h) ops).photo = some p →
      1 ≤ (photoBox st (run st (initState w h) ops)).width →
      1 ≤ (photoBox st (run st (initState w h) ops)).height →
      FitsIn (currentDimensions st (run st (initState w h) ops)).1
        (photoBox st (run st (initState w h) ops))) ∧
    (∀ d, (run st (initState w h) ops).photo = none →
      (run st (initState w h) ops).document = some d →
      FitsIn (currentDimensions st (run st (initState w h) ops)).1
        (docBox st d)) := by
  have hinv := run_sizeCacheInv st (initState w h) ops (Or.inl rfl)
  constructor
  · intro p hp hbw hbh
    rw [currentDimensions_photo_full st _ p hp hinv]
    exact photoFitted_fits st _ p hbw hbh
  · intro d hp hd
    have hE : (run st (initState w h) ops).cachedSize.isEmpty = true := by
      rcases hinv with hE | ⟨q, hq, _⟩ | ⟨hpn, hdn⟩
      · exact hE
      · rw [hp] at hq; cases hq
      · rw [hd] at hdn
        cases hdn
    rw [currentDimensions_doc_empty st _ d hp hd hE]
    exact docFitted_fits st _ d hms

/-- C1 witness: stickerState is reachable and the sticker size fits. -/
theorem C1_dimensions_fit_witness :
    1 ≤ sampleStyle.maxStickerSize ∧
    (run sampleStyle (initState 500 400) [Op.showDoc quietEnv 0 sampleSticker]).photo = none ∧
    (run sampleStyle (initState 500 400) [Op.showDoc quietEnv 0 sampleSticker]).document = some sampleSticker ∧
    FitsIn
      (currentDimensions sampleStyle
        (run sampleStyle (initState 500 400) [Op.showDoc quietEnv 0 sampleSticker])).1
      (docBox sampleStyle sampleSticker) := by
  refine ⟨by decide, rfl, rfl, ?_⟩
  exact (C1_dimensions_fit sampleStyle 500 400 [Op.showDoc quietEnv 0 sampleSticker]
    (by decide)).2 sampleSticker rfl rfl

open MediaPreview

/-- C2 counterexample: `cornerOps` leaves the widget hidden while `_document`
still holds the sticker (hiding completed after a new preview started in the
gap before the fade-out paint).  Calling showPreview there with a document
that is neither an animation nor a sticker runs the claimed hidePreview path,
yet the previewed-document reference does not end up null. -/
theorem C2_counterexample :
    ((plainDocument.isAnimation = false ∧ plainDocument.sticker = none) ∨
      plainDocument.isVideoMessage = true) ∧
    (showPreviewDocument sampleStyle quietEnv 0 plainDocument cornerState).document
      ≠ none := by
  refine ⟨Or.inl ⟨rfl, rfl⟩, ?_⟩
  intro hcontra
  rw [show (showPreviewDocument sampleStyle quietEnv 0 plainDocument
    cornerState).document = some sampleSticker from rfl] at hcontra
  cases hcontra

/-- C2 amended: showPreview with a document that is neither an animation nor
a sticker, or is a video message, behaves exactly like hidePreview; in
particular when the widget is visible the previewed references end up null
(when it is already hidden, hidePreview returns at once and leaves any stale
references untouched).  Otherwise the show is started (the widget ends up
shown, and the fade toward 1 runs when it was hidden or still animating),
`_document` is set to the document, `_photo` is nulled, the emoji list is
refilled, and the gif and lottie players and the bitmap cache state are
reset. -/
theorem C2_show_document (st : Style) (env : Env) (origin : Nat)
    (d : DocumentData) (s : WidgetState) :
    (((d.isAnimation = false ∧ d.sticker = none) ∨ d.isVideoMessage = true) →
      showPreviewDocument st env origin d s = hidePreview st env s ∧
      (s.hidden = false →
        (showPreviewDocument st env origin d s).photo = none ∧
        (showPreviewDocument st env origin d s).document = none)) ∧
    (¬((d.isAnimation = false ∧ d.sticker = none) ∨ d.isVideoMessage = true) →
      (showPreviewDocument st env origin d s).hidden = false ∧
      (showPreviewDocument st env origin d s).document = some d ∧
      (showPreviewDocument st env origin d s).photo = none ∧
      (showPreviewDocument st env origin d s).origin = origin ∧
      (showPreviewDocument st env origin d s).emojiList = emojiFor d ∧
      (showPreviewDocument st env origin d s).gif = GifState.empty ∧
      (showPreviewDocument st env origin d s).lottie = none ∧
      (showPreviewDocument st env origin d s).cacheStatus
        = CacheStatus.CacheNotLoaded ∧
      (showPreviewDocument st env origin d s).cachedSize = QSize.qdefault ∧
      (s.hidden = true ∨ s.animating = true →
        (showPreviewDocument st env origin d s).hidingFlag = false ∧
        (showPreviewDocument st env origin d s).animating = true ∧
        (showPreviewDocument st env origin d s).shownTo = 1)) := by
  constructor
  · intro hbad
    have heq : showPreviewDocument st env origin d s = hidePreview st env s := by
      unfold showPreviewDocument
      rw [if_pos hbad]
    refine ⟨heq, ?_⟩
    intro hvis
    rw [heq]
    obtain ⟨_, _, _, _, h5, h6⟩ := hidePreview_starts st env s hvis
    exact ⟨h5, h6⟩
  · intro hgood
    have heq : showPreviewDocument st env origin d s =
        resetGifAndCache (fillEmojiString { startShow s with origin := origin, photo := none, document := some d }) := by
      unfold showPreviewDocument
      rw [if_neg hgood]
    rw [heq]
    have hfE := fillEmojiString_doc { startShow s with origin := origin, photo := none, document := some d } d rfl rfl
    have hfO := fillEmojiString_other { startShow s with origin := origin, photo := none, document := some d }
    refine ⟨?_, ?_, ?_, ?_, ?_, rfl, rfl, rfl, rfl, ?_⟩
    · show (fillEmojiString _).hidden = false
      rw [hfO.1]
      exact startShow_hidden s
    · show (fillEmojiString _).document = some d
      rw [fillEmojiString_document]
    · show (fillEmojiString _).photo = none
      rw [fillEmojiString_photo]
    · show (fillEmojiString _).origin = origin
      rw [hfO.2.2.2.2.2.1]
    · exact hfE
    · intro hstart
      obtain ⟨h1, h2, _, h4⟩ := startShow_starts s hstart
      refine ⟨?_, ?_, ?_⟩
      · show (fillEmojiString _).hidingFlag = false
        rw [hfO.2.1]
        exact h1
      · show (fillEmojiString _).animating = true
        rw [hfO.2.2.1]
        exact h2
      · show (fillEmojiString _).shownTo = 1
        rw [hfO.2.2.2.2.1]
        exact h4

/-- C2 witness: both branches at concrete inputs: a plain document on a
visible widget hides and nulls the references; a sticker is stored with the
emoji list refilled and players reset. -/
theorem C2_show_document_witness :
    ((plainDocument.isAnimation = false ∧ plainDocument.sticker = none) ∨
      plainDocument.isVideoMessage = true) ∧
    showPreviewDocument sampleStyle quietEnv 3 plainDocument
        (startShow (initState 500 400))
      = hidePreview sampleStyle quietEnv (startShow (initState 500 400)) ∧
    (showPreviewDocument sampleStyle quietEnv 3 plainDocument
        (startShow (initState 500 400))).document = none ∧
    (showPreviewDocument sampleStyle quietEnv 3 sampleSticker
        (startShow (initState 500 400))).document = some sampleSticker ∧
    (showPreviewDocument sampleStyle quietEnv 3 sampleSticker
        (startShow (initState 500 400))).emojiList = emojiFor sampleSticker := by
  have hbad : (plainDocument.isAnimation = false ∧ plainDocument.sticker = none)
      ∨ plainDocument.isVideoMessage = true := Or.inl ⟨rfl, rfl⟩
  have h1 := (C2_show_document sampleStyle quietEnv 3 plainDocument
    (startShow (initState 500 400))).1 hbad
  have h2 := (C2_show_document sampleStyle quietEnv 3 sampleSticker
    (startShow (initState 500 400))).2 (by decide)
  exact ⟨hbad, h1.1, (h1.2 (by decide)).2, h2.2.1, h2.2.2.2.2.1⟩

open MediaPreview

theorem currentDimensions_origin (st : Style) (s : WidgetState) :
    (currentDimensions st s).2.origin = s.origin := by
  obtain ⟨cs, h⟩ := currentDimensions_shape st s
  rw [h]

theorem currentDimensions_cacheStatus (st : Style) (s : WidgetState) :
    (currentDimensions st s).2.cacheStatus = s.cacheStatus := by
  obtain ⟨cs, h⟩ := currentDimensions_shape st s
  rw [h]

/-- C3: image-source selection for a previewed sticker.  While the full
bitmap is not cached: a present-and-ready Lottie player (already existing, or
created now for a loaded animated sticker) makes `currentImage` return the
null pixmap; otherwise an available full sticker image is rendered sharp,
cached, and the status becomes CacheLoaded; otherwise a loaded thumbnail is
rendered blurred, cached, and the status becomes CacheThumbLoaded.  Once the
status is CacheLoaded, the call returns the cached pixmap with the state
untouched. -/
theorem C3_sticker_source_selection (st : Style) (env : Env) (s : WidgetState)
    (d : DocumentData) (sk : StickerData)
    (hd : s.document = some d) (hsk : d.sticker = some sk) :
    (s.cacheStatus ≠ CacheStatus.CacheLoaded →
      (s.lottie.isSome = true ∨
        (sk.animated = true ∧ s.lottie = none ∧ d.loaded = true)) →
      env.lottieReady = true →
      (currentImage st env s).1 = Pixmap.null) ∧
    (s.cacheStatus ≠ CacheStatus.CacheLoaded →
      ¬((s.lottie.isSome = true ∨
          (sk.animated = true ∧ s.lottie = none ∧ d.loaded = true)) ∧
        env.lottieReady = true) →
      ∀ image, d.stickerLarge = some image →
      ∃ w h, (currentImage st env s).1 = Pixmap.sharp image s.origin w h ∧
        (currentImage st env s).2.cache = (currentImage st env s).1 ∧
        (currentImage st env s).2.cacheStatus = CacheStatus.CacheLoaded) ∧
    (s.cacheStatus ≠ CacheStatus.CacheLoaded →
      ¬((s.lottie.isSome = true ∨
          (sk.animated = true ∧ s.lottie = none ∧ d.loaded = true)) ∧
        env.lottieReady = true) →
      d.stickerLarge = none →
      s.cacheStatus ≠ CacheStatus.CacheThumbLoaded →
      d.hasThumbnail = true → d.thumbnailLoaded = true →
      ∃ w h, (currentImage st env s).1
          = Pixmap.blurred d.thumbnailId s.origin w h ∧
        (currentImage st env s).2.cache = (currentImage st env s).1 ∧
        (currentImage st env s).2.cacheStatus = CacheStatus.CacheThumbLoaded) ∧
    (s.cacheStatus = CacheStatus.CacheLoaded →
      currentImage st env s = (s.cache, s)) := by
  refine ⟨?_, ?_, ?_, ?_⟩
  · intro hcs hl hready
    unfold currentImage setupLottie
    dsimp only
    simp only [hd]
    simp only [hsk]
    rw [if_pos hcs]
    by_cases hsetup : sk.animated = true ∧ s.lottie = none ∧ d.loaded = true
    · rw [if_pos hsetup]
      rw [if_pos ⟨rfl, hready⟩]
    · rw [if_neg hsetup]
      rcases hl with hsome | hset
      · rw [if_pos ⟨hsome, hready⟩]
      · exact absurd hset hsetup
  · intro hcs hnl image himg
    unfold currentImage setupLottie
    dsimp only
    simp only [hd]
    simp only [hsk]
    rw [if_pos hcs]
    by_cases hsetup : sk.animated = true ∧ s.lottie = none ∧ d.loaded = true
    · have hready : env.lottieReady = false := by
        by_cases hr : env.lottieReady = true
        · exact absurd ⟨Or.inr hsetup, hr⟩ hnl
        · simpa using hr
      rw [if_pos hsetup]
      rw [if_neg (by simp [hready])]
      rw [himg]
      dsimp only
      rw [currentDimensions_origin]
      exact ⟨_, _, rfl, rfl, rfl⟩
    · rw [if_neg hsetup]
      have hcond : ¬(s.lottie.isSome = true ∧ env.lottieReady = true) := by
        intro hc
        exact hnl ⟨Or.inl hc.1, hc.2⟩
      rw [if_neg hcond]
      rw [himg]
      dsimp only
      exact ⟨_, _, rfl, rfl, rfl⟩
  · intro hcs hnl hnone hcs2 hthumb hloaded
    unfold currentImage setupLottie
    dsimp only
    simp only [hd]
    simp only [hsk]
    rw [if_pos hcs]
    by_cases hsetup : sk.animated = true ∧ s.lottie = none ∧ d.loaded = true
    · have hready : env.lottieReady = false := by
        by_cases hr : env.lottieReady = true
        · exact absurd ⟨Or.inr hsetup, hr⟩ hnl
        · simpa using hr
      rw [if_pos hsetup]
      rw [if_neg (by simp [hready])]
      rw [hnone]
      dsimp only
      have hcs2b : (currentDimensions st s).2.cacheStatus ≠ CacheStatus.CacheThumbLoaded := by
        rw [currentDimensions_cacheStatus]
        exact hcs2
      rw [if_pos ⟨hcs2b, hthumb, hloaded⟩]
      rw [currentDimensions_origin]
      exact ⟨_, _, rfl, rfl, rfl⟩
    · rw [if_neg hsetup]
      have hcond : ¬(s.lottie.isSome = true ∧ env.lottieReady = true) := by
        intro hc
        exact hnl ⟨Or.inl hc.1, hc.2⟩
      rw [if_neg hcond]
      rw [hnone]
      dsimp only
      rw [if_pos ⟨hcs2, hthumb, hloaded⟩]
      exact ⟨_, _, rfl, rfl, rfl⟩
  · intro hcs
    unfold currentImage
    dsimp only
    simp only [hd]
    simp only [hsk]
    rw [if_neg (by simp [hcs])]

/-- C3 witness: with the bitmap already cached the call returns the cache and
leaves the state unchanged; with a full sticker image available it returns
the sharp rendering and marks the cache loaded. -/
theorem C3_sticker_source_selection_witness :
    currentImage sampleStyle quietEnv { stickerState with cacheStatus := CacheStatus.CacheLoaded } = (({ stickerState with cacheStatus := CacheStatus.CacheLoaded }).cache, { stickerState with cacheStatus := CacheStatus.CacheLoaded }) ∧
    (∃ w h, (currentImage sampleStyle quietEnv { stickerState with document := some ({ sampleSticker with stickerLarge := some 42 }) }).1 = Pixmap.sharp 42 ({ stickerState with document := some ({ sampleSticker with stickerLarge := some 42 }) }).origin w h ∧ (currentImage sampleStyle quietEnv { stickerState with document := some ({ sampleSticker with stickerLarge := some 42 }) }).2.cache = (currentImage sampleStyle quietEnv { stickerState with document := some ({ sampleSticker with stickerLarge := some 42 }) }).1 ∧ (currentImage sampleStyle quietEnv { stickerState with document := some ({ sampleSticker with stickerLarge := some 42 }) }).2.cacheStatus = CacheStatus.CacheLoaded) := by
  constructor
  · exact (C3_sticker_source_selection sampleStyle quietEnv
      { stickerState with cacheStatus := CacheStatus.CacheLoaded }
      sampleSticker { animated := false, altEmoji := none } rfl rfl).2.2.2 rfl
  · exact (C3_sticker_source_selection sampleStyle quietEnv
      { stickerState with document := some ({ sampleSticker with stickerLarge := some 42 }) }
      ({ sampleSticker with stickerLarge := some 42 })
      { animated := false, altEmoji := none } rfl rfl).2.1
      (by decide) (by decide) 42 rfl
